import Mathlib

/-!
Verification development for the `packs` repository.

The repository has two source files:
* `src/lib/resource_location.py` — the `ResourceLocation` value type
  (construction/validation, the private-path rewrite, `/` derivation,
  attribute-style symbol projection, bracket-style field lookup,
  rendering, equality and hashing);
* `src/beet_plugins/main.py` — the `beet_default` build plugin
  (pack discovery, per-pack validation/config loading, subproject registration).

Both are embedded below as executable Lean definitions, translated
statement-by-statement from the Python source.  Python exceptions are
modelled with `Except`; Python's attribute-lookup protocol for the
`ResourceLocation` class (instance dictionary, `cached_property`
descriptors, the `__getattr__` fallback, and the rule that an
`AttributeError` escaping a descriptor re-enters `__getattr__` under the
originally requested name) is modelled explicitly by `getattrRL`.
-/

/-! ## Character classes and the two regexes of `resource_location.py`

`VALID_RESOURCE_NAME = re.compile(r"^[a-z0-9_.-]+$")`
`CONVENTIONAL_RESOURCE_NAME = re.compile(r"^[a-z0-9]+(?:_[a-z0-9]+)*$")`

`re.match` with a pattern anchored by `$` (MULTILINE off) succeeds on a
string `s` iff the core pattern matches all of `s`, or `s` ends with a
newline and the core pattern matches `s` without that final newline.
`matchDollar` reproduces exactly this semantics. -/

/-- Membership in the regex class `[a-z0-9]` (ASCII lowercase letter or digit). -/
def isLowerAlnum (c : Char) : Bool :=
  (decide ('a' ≤ c) && decide (c ≤ 'z')) || (decide ('0' ≤ c) && decide (c ≤ '9'))

/-- Membership in the permissive class `[a-z0-9_.-]`. -/
def permChar (c : Char) : Bool :=
  isLowerAlnum c || c == '_' || c == '.' || c == '-'

/-- Core of `^[a-z0-9_.-]+$`: one or more characters of the permissive class. -/
def validCore (cs : List Char) : Bool :=
  !cs.isEmpty && cs.all permChar

/-- Runner for `^[a-z0-9]+(?:_[a-z0-9]+)*$`.  The flag records whether at
least one `[a-z0-9]` character of the current underscore-separated group
has been read (so the group is allowed to end here). -/
def convRun (ok : Bool) : List Char → Bool
  | [] => ok
  | c :: cs => if c == '_' then ok && convRun false cs else isLowerAlnum c && convRun true cs

/-- Core of `^[a-z0-9]+(?:_[a-z0-9]+)*$`. -/
def convCore (cs : List Char) : Bool := convRun false cs

/-- Python `re.match` semantics for a pattern of the shape `^core$` with
MULTILINE off: `$` matches at the end of the string or just before one
final newline. -/
def matchDollar (core : List Char → Bool) (cs : List Char) : Bool :=
  core cs ||
    (match cs.getLast? with
     | some c => (c == '\n') && core cs.dropLast
     | none => false)

/-- Truthiness of `VALID_RESOURCE_NAME.match(s)` (src/lib/resource_location.py:8). -/
def VALID_RESOURCE_NAME (s : String) : Bool := matchDollar validCore s.data

/-- Truthiness of `CONVENTIONAL_RESOURCE_NAME.match(s)` (src/lib/resource_location.py:9). -/
def CONVENTIONAL_RESOURCE_NAME (s : String) : Bool := matchDollar convCore s.data

/-! ## Python string-method helpers used by the source -/

/-- Python `str.partition(":")` on the character list: the part before the
first `:`, a flag recording whether a `:` was found, and the remainder. -/
def partitionColon : List Char → List Char × Bool × List Char
  | [] => ([], false, [])
  | c :: cs =>
    if c = ':' then ([], true, cs)
    else
      let r := partitionColon cs
      (c :: r.1, r.2.1, r.2.2)

/-- Python `str.split(sep)` for a single-character separator (always returns
at least one piece; splitting the empty string yields `[[]]`). -/
def splitSeg (sep : Char) : List Char → List (List Char)
  | [] => [[]]
  | c :: cs =>
    match splitSeg sep cs with
    | [] => [[]]
    | s :: ss => if c = sep then [] :: s :: ss else (c :: s) :: ss

/-- Python `s.split("/")`. -/
def splitOnSlash (s : String) : List String := (splitSeg '/' s.data).map String.mk

/-- Python `s.startswith("_")`. -/
def startsWithUnderscore (s : String) : Bool :=
  match s.data with
  | [] => false
  | c :: _ => c == '_'

/-- Python `s.removesuffix("_")`: drops one trailing underscore if present. -/
def removeSuffixUnderscore (s : String) : String :=
  match s.data.getLast? with
  | some c => if c = '_' then String.mk s.data.dropLast else s
  | none => s

/-! ## The ResourceLocation data model -/

/-- Modelled from the spec: `lib/version.py` is imported by
`resource_location.py` but is not among the source files; the spec treats
`Version` as "an opaque attached version tag ... a passthrough value", so
it is modelled as an opaque wrapper.  (No claim depends on its internals;
the constructor's `Version(str)` coercion overload is likewise elided and
a caller passes an already-built `Version` or nothing.) -/
structure Version where
  raw : String
deriving DecidableEq

/-- `PRIVATE_PATH` (src/lib/resource_location.py:6). -/
def PRIVATE_PATH : String := "zz/do_not_run_or_packs_may_break"

/-- Python exceptions raised by the embedded code.  `invalidName n` and
`unconventionalName n` are the two `ValueError`s of `_check_name` (lines
92-96), each carrying the offending name; `attributeError a` is
`AttributeError: ... has no attribute 'a'`. -/
inductive PyErr where
  | invalidName (name : String)
  | unconventionalName (name : String)
  | attributeError (attr : String)
deriving DecidableEq

/-- Python values that attribute lookup on a `ResourceLocation` can produce. -/
inductive PyVal where
  | pyNone
  | pyStr (s : String)
  | pyTuple (segs : List String)
  | pyVersion (v : Version)
  | pyBool (b : Bool)
deriving DecidableEq

/-- The instance dictionary of a constructed `ResourceLocation`
(src/lib/resource_location.py:69-89).  `__init__` assigns `_namespace`,
`version`, `title` and `external` always, and `_abstract_path` only when
the input contained a `:` — `_abstract_path := none` records that the
attribute was never assigned (the class-level `_abstract_path: str | None`
annotation creates no attribute, and no code path assigns `None` to it).
The names `_version`, `_title`, `_external` declared in the annotation
block (lines 62-67) are likewise never assigned. -/
structure ResourceLocation where
  _namespace : String
  _abstract_path : Option String
  version : Option Version
  title : Option String
  external : Bool
deriving DecidableEq

/-- The private-path rewrite inside `_path_segments`
(src/lib/resource_location.py:102-115): skipped when `external`; otherwise,
if the last segment starts with `_`, that segment is replaced by
`removesuffix("_")` of itself and the single segment `PRIVATE_PATH` is
inserted at the front.  (The `none` branch is unreachable from the source:
`str.split` never returns an empty list, so `segs[-1]` never raises.) -/
def rewriteSegs (ext : Bool) (segs : List String) : List String :=
  if ext then segs
  else
    match segs.getLast? with
    | none => segs
    | some last =>
      if startsWithUnderscore last then
        PRIVATE_PATH :: (segs.dropLast ++ [removeSuffixUnderscore last])
      else segs

/-- `_check_name` (src/lib/resource_location.py:91-96). -/
def checkName (ext : Bool) (name : String) : Except PyErr Unit :=
  if !VALID_RESOURCE_NAME name then .error (.invalidName name)
  else if !(CONVENTIONAL_RESOURCE_NAME name || ext) then .error (.unconventionalName name)
  else .ok ()

/-- The `for path_segment in self._path_segments: self._check_name(path_segment)`
loop of `__init__` (src/lib/resource_location.py:88-89): checks names in list
order, stopping at the first failure. -/
def checkAll (ext : Bool) : List String → Except PyErr Unit
  | [] => .ok ()
  | s :: rest =>
    match checkName ext s with
    | .error e => .error e
    | .ok _ => checkAll ext rest

/-- Namespace component of `base.partition(":")`. -/
def nsOf (base : String) : String := String.mk (partitionColon base.data).1

/-- Whether `base` contained a `:`. -/
def colonOf (base : String) : Bool := (partitionColon base.data).2.1

/-- Path component of `base.partition(":")` (meaningful only when `colonOf`). -/
def apOf (base : String) : String := String.mk (partitionColon base.data).2.2

/-- `ResourceLocation.__init__` (src/lib/resource_location.py:69-89):
partition the input on the first `:`, check the namespace, and — only when
a `:` was present — assign `_abstract_path` and check every element of
`self._path_segments`, i.e. of the already-rewritten segment list.  The
`version`/`title`/`external` keywords are stored under exactly those
(underscore-less) attribute names. -/
def rlInit (base : String) (v : Option Version) (t : Option String) (ext : Bool) :
    Except PyErr ResourceLocation :=
  match checkName ext (nsOf base) with
  | .error e => .error e
  | .ok _ =>
    if colonOf base then
      match checkAll ext (rewriteSegs ext (splitOnSlash (apOf base))) with
      | .error e => .error e
      | .ok _ => .ok ⟨nsOf base, some (apOf base), v, t, ext⟩
    else
      .ok ⟨nsOf base, none, v, t, ext⟩

/-- `__getattr__` (src/lib/resource_location.py:128-134): keys matching the
conventional grammar project to the dotted symbol name
`".".join([self._namespace, *self._path_segments, key])`; other keys raise
`AttributeError(key)`.  Evaluating `self._path_segments` when
`_abstract_path` was never assigned raises — after the descriptor's
`AttributeError` falls back through the protocol —
`AttributeError('_path_segments')`, which propagates out of `__getattr__`
unchanged. -/
def dunderGetattr (l : ResourceLocation) (key : String) : Except PyErr PyVal :=
  if CONVENTIONAL_RESOURCE_NAME key then
    match l._abstract_path with
    | none => .error (.attributeError "_path_segments")
    | some ap =>
      .ok (.pyStr (String.intercalate "."
        (l._namespace :: (rewriteSegs l.external (splitOnSlash ap) ++ [key]))))
  else .error (.attributeError key)

/-- The full attribute-lookup protocol `getattr(l, key)` for this class:
instance-dictionary names first (`_namespace`, `version`, `title`,
`external`, and `_abstract_path` when assigned), then the two
`cached_property` descriptors `_path_segments` (lines 98-115) and `_path`
(lines 117-121), then the `__getattr__` fallback.  An `AttributeError`
raised while a descriptor computes is caught by the protocol, which then
calls `__getattr__` with the originally requested name.  (Method
attributes such as `_check_name` are not modelled; no claim looks them
up.) -/
def getattrRL (l : ResourceLocation) (key : String) : Except PyErr PyVal :=
  if key = "_namespace" then .ok (.pyStr l._namespace)
  else if key = "_abstract_path" then
    match l._abstract_path with
    | some ap => .ok (.pyStr ap)
    | none => dunderGetattr l key
  else if key = "version" then
    .ok (match l.version with | some vv => .pyVersion vv | none => .pyNone)
  else if key = "title" then
    .ok (match l.title with | some tt => .pyStr tt | none => .pyNone)
  else if key = "external" then .ok (.pyBool l.external)
  else if key = "_path_segments" then
    match l._abstract_path with
    | some ap => .ok (.pyTuple (rewriteSegs l.external (splitOnSlash ap)))
    | none => dunderGetattr l key
  else if key = "_path" then
    match l._abstract_path with
    | some ap =>
      let segs := rewriteSegs l.external (splitOnSlash ap)
      .ok (if segs.isEmpty then .pyNone else .pyStr (String.intercalate "/" segs))
    | none => dunderGetattr l key
  else dunderGetattr l key

/-- `__getitem__` (src/lib/resource_location.py:136-137):
`getattr(self, f"_{key}")`. -/
def getitemRL (l : ResourceLocation) (key : String) : Except PyErr PyVal :=
  getattrRL l ("_" ++ key)

/-- `__str__` (src/lib/resource_location.py:139-143): `self._namespace` when
`self._path is None`, else `f"{self._namespace}:{self._path}"`.  (The
final catch-all arm is unreachable: `_path` only ever produces `None` or a
string.) -/
def strRL (l : ResourceLocation) : Except PyErr String :=
  match getattrRL l "_path" with
  | .error e => .error e
  | .ok .pyNone => .ok l._namespace
  | .ok (.pyStr p) => .ok (l._namespace ++ ":" ++ p)
  | .ok _ => .ok l._namespace

/-- `__truediv__` (src/lib/resource_location.py:123-126): read
`self._abstract_path` (truthiness decides whether to prepend it), then
construct `ResourceLocation(f"{self._namespace}:{path}",
external=self._external)` — reading `self._external` is itself an
attribute lookup.  (The catch-all arms mirror Python's dynamic typing and
are unreachable: `_abstract_path`, when present, is a string, and a
successful `_external` read could only yield the stored boolean.) -/
def truediv (l : ResourceLocation) (other : String) : Except PyErr ResourceLocation :=
  match getattrRL l "_abstract_path" with
  | .error e => .error e
  | .ok apv =>
    let path :=
      match apv with
      | .pyStr ap => if ap = "" then other else ap ++ "/" ++ other
      | _ => other
    match getattrRL l "_external" with
    | .error e => .error e
    | .ok extv =>
      match extv with
      | .pyBool b => rlInit (l._namespace ++ ":" ++ path) none none b
      | _ => rlInit (l._namespace ++ ":" ++ path) none none false

/-- `__eq__` (src/lib/resource_location.py:145-146): `str(self) == str(other)`,
restricted to the case where `other` is itself a `ResourceLocation`. -/
def eqRL (a b : ResourceLocation) : Except PyErr Bool :=
  match strRL a with
  | .error e => .error e
  | .ok sa =>
    match strRL b with
    | .error e => .error e
    | .ok sb => .ok (decide (sa = sb))

/-- The interpreter's string hash.  Python's `hash` on `str` is an
interpreter detail; it is modelled as a fixed pure function of the string
— every claim about hashing depends only on that functional dependence. -/
def pyStrHash (s : String) : Nat :=
  s.data.foldl (fun h c => (h * 31 + c.toNat) % (2 ^ 64)) 7

/-- `__hash__` (src/lib/resource_location.py:151-152): `hash(str(self))`. -/
def hashRL (l : ResourceLocation) : Except PyErr Nat :=
  match strRL l with
  | .error e => .error e
  | .ok s => .ok (pyStrHash s)

/-- The combined two-tier acceptance test of `_check_name`: the name passes
the permissive grammar, and passes the conventional grammar or the
location is external. -/
def twoTierOk (ext : Bool) (s : String) : Bool :=
  VALID_RESOURCE_NAME s && (CONVENTIONAL_RESOURCE_NAME s || ext)

/-- Discriminator for `Except` results. -/
def isOkE {ε α : Type} : Except ε α → Bool
  | .ok _ => true
  | .error _ => false

/-! ## The beet build plugin (src/beet_plugins/main.py)

`beet_default` creates `pack_paths = Path(".").glob(pack_pattern)` once —
in CPython, `Path.glob` returns a single-use generator — and then runs two
`for` loops over that same object.  The generator is modelled as a list of
paths consumed destructively: the first loop returns, together with the
collected configs, whatever the iterator has left (nothing, when the loop
ran to completion), and the second loop iterates exactly that remainder.
Filesystem and YAML effects are abstracted into an `FS` record supplying
the glob results and the per-path answers the code asks for. -/

/-- A `pathlib.Path`, as the plugin uses it: its components
(`Path.parts`). -/
structure PPath where
  parts : List String
deriving DecidableEq

/-- `Path.as_posix()`: components joined by `/` (glob results are relative,
with no leading separator). -/
def asPosix (p : PPath) : String := String.intercalate "/" p.parts

/-- `Path.name`: the final component (glob results are non-empty paths, so
the default is never used). -/
def pathName (p : PPath) : String := p.parts.getLast?.getD ""

/-- The parsed `config.yaml` mapping, restricted to the two keys the plugin
reads; a `none` field models a mapping without that key (reading it raises
`KeyError`, which the build loop's `try/except` swallows). -/
structure PackConfig where
  title : Option String
  version : Option String
deriving DecidableEq

/-- The plugin's observable environment: the glob results (in generator
order) and the filesystem/YAML answers for each path. -/
structure FS where
  globResult : List PPath
  isDir : PPath → Bool
  isConfigFile : PPath → Bool
  loadConfig : PPath → PackConfig

/-- The two uncaught exceptions of the validation loop
(src/beet_plugins/main.py:29-41): `ValueError` for a path outside the
`<kind>packs/<version>/<name>` convention and `FileNotFoundError` for a
missing `config.yaml`. -/
inductive BuildErr where
  | invalidPath (p : PPath)
  | missingConfig (p : PPath)
deriving DecidableEq

/-- Character class `\d` of `VALID_PATH`, in its ASCII reading (no claim
depends on the non-ASCII digits Python's `\d` additionally accepts). -/
def isDigitC (c : Char) : Bool := decide ('0' ≤ c) && decide (c ≤ '9')

/-- Consume a literal pattern from the front of the input, returning the
rest on success. -/
def dropLit : List Char → List Char → Option (List Char)
  | [], rest => some rest
  | _ :: _, [] => none
  | p :: ps, c :: cs => if p = c then dropLit ps cs else none

/-- Tail of `VALID_PATH` after the `(?:data|resource)packs/` alternation:
`\d+\.\d+/[^/]+` to the end of the input. -/
def versionAndName (cs : List Char) : Bool :=
  let d1 := cs.takeWhile isDigitC
  let r1 := cs.dropWhile isDigitC
  !d1.isEmpty &&
    (match r1 with
     | '.' :: r2 =>
       let d2 := r2.takeWhile isDigitC
       let r3 := r2.dropWhile isDigitC
       !d2.isEmpty &&
         (match r3 with
          | '/' :: tail => !tail.isEmpty && tail.all (fun c => c != '/')
          | _ => false)
     | _ => false)

/-- Core of `VALID_PATH = re.compile(r"^(?:data|resource)packs/\d+\.\d+/[^/]+$")`
(src/beet_plugins/main.py:11). -/
def validPathCore (cs : List Char) : Bool :=
  match dropLit "datapacks/".data cs with
  | some rest => versionAndName rest
  | none =>
    match dropLit "resourcepacks/".data cs with
    | some rest => versionAndName rest
    | none => false

/-- Truthiness of `VALID_PATH.match(s)`. -/
def VALID_PATH (s : String) : Bool := matchDollar validPathCore s.data

/-- Python `dict` assignment `d[k] = v`: overwrite in place if the key is
present, else append. -/
def dictSet (d : List (PPath × PackConfig)) (k : PPath) (v : PackConfig) :
    List (PPath × PackConfig) :=
  if (d.lookup k).isSome then d.map (fun kv => if kv.1 = k then (k, v) else kv)
  else d ++ [(k, v)]

/-- The first `for pack_path in pack_paths:` loop
(src/beet_plugins/main.py:25-42): skip non-directories, fail hard on a
path outside the convention or without a `config.yaml`, and record the
parsed config.  On success it also returns the shared iterator's remaining
items — none, since the loop ran the iterator to exhaustion. -/
def packLoop1 (fs : FS) : List PPath → List (PPath × PackConfig) →
    Except BuildErr (List (PPath × PackConfig) × List PPath)
  | [], acc => .ok (acc, [])
  | p :: rest, acc =>
    if !fs.isDir p then packLoop1 fs rest acc
    else if !VALID_PATH (asPosix p) then .error (.invalidPath p)
    else if !fs.isConfigFile p then .error (.missingConfig p)
    else packLoop1 fs rest (dictSet acc p (fs.loadConfig p))

/-- The subproject dictionary handed to `ctx.require(subproject(...))`
(src/beet_plugins/main.py:63-82), restricted to its per-pack data; the
constant entries (`output`, `data_pack.load`, `require`, `pipeline`) and
the fixed second description line are the same for every pack and are not
repeated here. -/
structure Subproject where
  projId : String
  projName : String
  projVersion : String
  directory : String
  description : String
deriving DecidableEq

/-- The second `for pack_path in pack_paths:` loop
(src/beet_plugins/main.py:44-85): each iteration runs under
`try/except Exception`, so a `KeyError` from `pack_configs[pack_path]` or
`config["title"]`/`config["version"]`, or an `IndexError` from
`pack_path.parts[1]`, is logged and the pack is skipped; otherwise the
subproject is registered. -/
def packLoop2 (cfgs : List (PPath × PackConfig)) : List PPath → List Subproject
  | [] => []
  | p :: rest =>
    match cfgs.lookup p with
    | none => packLoop2 cfgs rest
    | some cfg =>
      match p.parts.get? 1, cfg.title, cfg.version with
      | some gv, some ttl, some ver =>
        { projId := pathName p, projName := ttl, projVersion := ver,
          directory := asPosix p,
          description := ttl ++ " " ++ ver ++ " for MC " ++ gv } :: packLoop2 cfgs rest
      | _, _, _ => packLoop2 cfgs rest

/-- `beet_default` (src/beet_plugins/main.py:14-85): run the validation
loop and then the build loop over the one shared `glob` generator,
returning the list of registered subprojects. -/
def beetDefault (fs : FS) : Except BuildErr (List Subproject) :=
  match packLoop1 fs fs.globResult [] with
  | .error e => .error e
  | .ok (cfgs, leftover) => .ok (packLoop2 cfgs leftover)

/-! ## Grammar facts -/

/-- Every character accepted by the conventional matcher lies in the
permissive class. -/
theorem convRun_all : ∀ (cs : List Char) (st : Bool),
    convRun st cs = true → cs.all permChar = true := by
  intro cs
  induction cs with
  | nil => intro st _; rfl
  | cons c rest ih =>
    intro st h
    simp only [convRun] at h
    rw [List.all_cons]
    split at h
    case isTrue hc =>
      rw [Bool.and_eq_true] at h
      obtain ⟨_, h2⟩ := h
      have hall := ih false h2
      have hcq : c = '_' := by simpa using hc
      subst hcq
      simp [hall, permChar]
    case isFalse hc =>
      rw [Bool.and_eq_true] at h
      obtain ⟨h1, h2⟩ := h
      have hall := ih true h2
      simp [hall, permChar, h1]

/-- A string accepted by the conventional core is nonempty and permissive. -/
theorem convCore_imp_validCore (cs : List Char) (h : convCore cs = true) :
    validCore cs = true := by
  have hall := convRun_all cs false h
  have hne : cs.isEmpty = false := by
    cases cs with
    | nil => exact absurd h (by decide)
    | cons _ _ => rfl
  simp [validCore, hall, hne]

/-- Monotonicity of the `^core$` match semantics in the core matcher. -/
theorem matchDollar_mono {core1 core2 : List Char → Bool}
    (hmono : ∀ cs, core1 cs = true → core2 cs = true) (cs : List Char)
    (h : matchDollar core1 cs = true) : matchDollar core2 cs = true := by
  unfold matchDollar at h ⊢
  rw [Bool.or_eq_true] at h
  rcases h with h1 | h2
  · rw [Bool.or_eq_true]
    exact Or.inl (hmono _ h1)
  · rw [Bool.or_eq_true]
    right
    cases hL : cs.getLast? with
    | none =>
      rw [hL] at h2
      have h2f : (false : Bool) = true := h2
      cases h2f
    | some c =>
      rw [hL] at h2
      have h2c : ((c == '\n') && core1 cs.dropLast) = true := h2
      rw [Bool.and_eq_true] at h2c
      obtain ⟨hnl, hcore⟩ := h2c
      have hgoal : ((c == '\n') && core2 cs.dropLast) = true := by
        rw [Bool.and_eq_true]
        exact ⟨hnl, hmono _ hcore⟩
      exact hgoal

/-- A conventional name always passes the permissive check. -/
theorem conv_imp_valid (s : String) (h : CONVENTIONAL_RESOURCE_NAME s = true) :
    VALID_RESOURCE_NAME s = true :=
  matchDollar_mono convCore_imp_validCore s.data h

/-- The conventional core rejects any string starting with an underscore. -/
theorem convCore_underscore (rest : List Char) : convCore ('_' :: rest) = false := by
  simp [convCore, convRun]

/-- A name starting with `_` never matches the conventional grammar. -/
theorem conv_underscore_false (s : String) (h : startsWithUnderscore s = true) :
    CONVENTIONAL_RESOURCE_NAME s = false := by
  obtain ⟨rest, hd⟩ : ∃ rest, s.data = '_' :: rest := by
    unfold startsWithUnderscore at h
    cases hc : s.data with
    | nil => rw [hc] at h; simp at h
    | cons c rest =>
      rw [hc] at h
      have hcq : c = '_' := by simpa using h
      subst hcq
      exact ⟨rest, rfl⟩
  unfold CONVENTIONAL_RESOURCE_NAME matchDollar
  rw [hd]
  have h2 : convCore (('_' :: rest).dropLast) = false := by
    cases rest with
    | nil => rfl
    | cons r rs =>
      have hstep : ('_' :: r :: rs).dropLast = '_' :: (r :: rs).dropLast := rfl
      rw [hstep]
      exact convCore_underscore _
  rw [convCore_underscore rest]
  cases hL : ('_' :: rest).getLast? with
  | none => rfl
  | some c => simp [h2]

/-! ## Characterization of `_check_name` and the constructor -/

/-- `_check_name` succeeds exactly on names passing the two-tier test. -/
theorem checkName_isOk (ext : Bool) (s : String) :
    isOkE (checkName ext s) = twoTierOk ext s := by
  unfold checkName twoTierOk
  cases hv : VALID_RESOURCE_NAME s <;>
    cases hc : CONVENTIONAL_RESOURCE_NAME s <;>
      cases ext <;> simp [isOkE, hv, hc]

/-- The `invalid` error of `_check_name` names the checked string, which
fails the permissive grammar. -/
theorem checkName_invalid {ext : Bool} {s n : String}
    (h : checkName ext s = .error (.invalidName n)) :
    n = s ∧ VALID_RESOURCE_NAME s = false := by
  unfold checkName at h
  split at h
  · next hcond =>
    simp only [Except.error.injEq, PyErr.invalidName.injEq] at h
    refine ⟨h.symm, ?_⟩
    simpa using hcond
  · split at h
    · simp at h
    · simp at h

/-- The `unconventional` error of `_check_name` names the checked string,
which passes the permissive but not the conventional grammar, and can only
occur for non-external locations. -/
theorem checkName_unconv {ext : Bool} {s n : String}
    (h : checkName ext s = .error (.unconventionalName n)) :
    n = s ∧ VALID_RESOURCE_NAME s = true ∧
      CONVENTIONAL_RESOURCE_NAME s = false ∧ ext = false := by
  unfold checkName at h
  split at h
  · simp at h
  · next hvcond =>
    split at h
    · next hccond =>
      simp only [Except.error.injEq, PyErr.unconventionalName.injEq] at h
      have hv : VALID_RESOURCE_NAME s = true := by simpa using hvcond
      have hcc : (CONVENTIONAL_RESOURCE_NAME s || ext) = false := by simpa using hccond
      rcases Bool.or_eq_false_iff.mp hcc with ⟨hc1, hc2⟩
      exact ⟨h.symm, hv, hc1, hc2⟩
    · simp at h

/-- `_check_name` never raises an `AttributeError`. -/
theorem checkName_ne_attr (ext : Bool) (s a : String) :
    checkName ext s ≠ .error (.attributeError a) := by
  unfold checkName
  split
  · simp
  · split <;> simp

/-- The segment-checking loop succeeds exactly when every segment passes
the two-tier test. -/
theorem checkAll_isOk (ext : Bool) : ∀ l : List String,
    isOkE (checkAll ext l) = l.all (twoTierOk ext) := by
  intro l
  induction l with
  | nil => rfl
  | cons s rest ih =>
    rw [List.all_cons]
    cases hc : checkName ext s with
    | error e =>
      have hds := checkName_isOk ext s
      rw [hc] at hds
      simp only [isOkE] at hds
      simp [checkAll, hc, ← hds, isOkE]
    | ok u =>
      have hds := checkName_isOk ext s
      rw [hc] at hds
      simp only [isOkE] at hds
      simp [checkAll, hc, ← hds, ih]

/-- An `invalidName` error from the loop names a string failing the
permissive grammar. -/
theorem checkAll_invalid (ext : Bool) : ∀ (l : List String) (n : String),
    checkAll ext l = .error (.invalidName n) → VALID_RESOURCE_NAME n = false := by
  intro l
  induction l with
  | nil => intro n h; simp [checkAll] at h
  | cons s rest ih =>
    intro n h
    simp only [checkAll] at h
    cases hc : checkName ext s with
    | error e =>
      rw [hc] at h
      simp only [Except.error.injEq] at h
      rw [h] at hc
      obtain ⟨hn, hv⟩ := checkName_invalid hc
      rw [hn]
      exact hv
    | ok u =>
      rw [hc] at h
      exact ih n h

/-- An `unconventionalName` error from the loop names a string passing the
permissive but failing the conventional grammar, with `external` false. -/
theorem checkAll_unconv (ext : Bool) : ∀ (l : List String) (n : String),
    checkAll ext l = .error (.unconventionalName n) →
      VALID_RESOURCE_NAME n = true ∧ CONVENTIONAL_RESOURCE_NAME n = false ∧ ext = false := by
  intro l
  induction l with
  | nil => intro n h; simp [checkAll] at h
  | cons s rest ih =>
    intro n h
    simp only [checkAll] at h
    cases hc : checkName ext s with
    | error e =>
      rw [hc] at h
      simp only [Except.error.injEq] at h
      rw [h] at hc
      obtain ⟨hn, hrest⟩ := checkName_unconv hc
      exact hn ▸ hrest
    | ok u =>
      rw [hc] at h
      exact ih n h

/-- The segment-checking loop never raises an `AttributeError`. -/
theorem checkAll_ne_attr (ext : Bool) : ∀ (l : List String) (a : String),
    checkAll ext l ≠ .error (.attributeError a) := by
  intro l
  induction l with
  | nil => intro a h; simp [checkAll] at h
  | cons s rest ih =>
    intro a h
    simp only [checkAll] at h
    cases hc : checkName ext s with
    | error e =>
      rw [hc] at h
      simp only [Except.error.injEq] at h
      exact checkName_ne_attr ext s a (h ▸ hc)
    | ok u =>
      rw [hc] at h
      exact ih a h

/-- Helper: the element reported by `getLast?` belongs to the list. -/
theorem getLastMem {α : Type} : ∀ {l : List α} {a : α}, l.getLast? = some a → a ∈ l := by
  intro l
  induction l with
  | nil => intro a h; simp at h
  | cons b t ih =>
    intro a h
    cases t with
    | nil =>
      simp at h
      simp [h]
    | cons c t2 =>
      rw [List.getLast?_cons_cons] at h
      exact List.mem_cons_of_mem _ (ih h)

/-- The private-path rewrite never changes whether all segments pass the
two-tier test: when it fires, the pre-rewrite last segment starts with `_`
(so fails the conventional grammar with `external` false) and the inserted
`PRIVATE_PATH` segment contains `/` (so fails the permissive grammar) —
both sides of the equation are `false`. -/
theorem rewriteSegs_all (ext : Bool) (segs : List String) :
    (rewriteSegs ext segs).all (twoTierOk ext) = segs.all (twoTierOk ext) := by
  unfold rewriteSegs
  cases ext with
  | true => simp
  | false =>
    simp only [Bool.false_eq_true, if_false]
    cases hL : segs.getLast? with
    | none => rfl
    | some last =>
      cases hu : startsWithUnderscore last with
      | false => simp [hu]
      | true =>
        have hlconv : CONVENTIONAL_RESOURCE_NAME last = false := conv_underscore_false last hu
        have hmem : last ∈ segs := getLastMem hL
        have hrhs : segs.all (twoTierOk false) = false := by
          apply List.all_eq_false.mpr
          exact ⟨last, hmem, by simp [twoTierOk, hlconv]⟩
        have hpriv : twoTierOk false PRIVATE_PATH = false := rfl
        simp [hu, List.all_cons, hpriv, hrhs]

/-- The constructor succeeds exactly when the namespace and — when a `:`
was present — every pre-rewrite abstract-path segment pass the two-tier
test. -/
theorem rlInit_isOk (base : String) (v : Option Version) (t : Option String) (ext : Bool) :
    isOkE (rlInit base v t ext)
      = (twoTierOk ext (nsOf base) &&
         (!colonOf base || (splitOnSlash (apOf base)).all (twoTierOk ext))) := by
  unfold rlInit
  cases hns : checkName ext (nsOf base) with
  | error e =>
    have h1 := checkName_isOk ext (nsOf base)
    rw [hns] at h1
    simp only [isOkE] at h1
    simp [isOkE, ← h1]
  | ok u =>
    have h1 := checkName_isOk ext (nsOf base)
    rw [hns] at h1
    simp only [isOkE] at h1
    cases hcol : colonOf base with
    | false => simp [isOkE, ← h1, hcol]
    | true =>
      cases hca : checkAll ext (rewriteSegs ext (splitOnSlash (apOf base))) with
      | error e =>
        have h2 := checkAll_isOk ext (rewriteSegs ext (splitOnSlash (apOf base)))
        rw [hca] at h2
        simp only [isOkE] at h2
        rw [rewriteSegs_all] at h2
        simp [isOkE, ← h1, ← h2]
      | ok u2 =>
        have h2 := checkAll_isOk ext (rewriteSegs ext (splitOnSlash (apOf base)))
        rw [hca] at h2
        simp only [isOkE] at h2
        rw [rewriteSegs_all] at h2
        simp [isOkE, ← h1, ← h2]

/-- An `invalidName` error from the constructor names a string failing the
permissive grammar. -/
theorem rlInit_invalid {base : String} {v : Option Version} {t : Option String}
    {ext : Bool} {n : String} (h : rlInit base v t ext = .error (.invalidName n)) :
    VALID_RESOURCE_NAME n = false := by
  unfold rlInit at h
  cases hns : checkName ext (nsOf base) with
  | error e =>
    rw [hns] at h
    simp only [Except.error.injEq] at h
    rw [h] at hns
    obtain ⟨hn, hv⟩ := checkName_invalid hns
    rw [hn]
    exact hv
  | ok u =>
    rw [hns] at h
    cases hcol : colonOf base with
    | false => rw [hcol] at h; simp at h
    | true =>
      rw [hcol] at h
      simp only [if_true] at h
      cases hca : checkAll ext (rewriteSegs ext (splitOnSlash (apOf base))) with
      | error e =>
        rw [hca] at h
        simp only [Except.error.injEq] at h
        rw [h] at hca
        exact checkAll_invalid ext _ n hca
      | ok u2 => rw [hca] at h; simp at h

/-- An `unconventionalName` error from the constructor names a string
passing the permissive but failing the conventional grammar, and only
occurs with `external` false. -/
theorem rlInit_unconv {base : String} {v : Option Version} {t : Option String}
    {ext : Bool} {n : String} (h : rlInit base v t ext = .error (.unconventionalName n)) :
    VALID_RESOURCE_NAME n = true ∧ CONVENTIONAL_RESOURCE_NAME n = false ∧ ext = false := by
  unfold rlInit at h
  cases hns : checkName ext (nsOf base) with
  | error e =>
    rw [hns] at h
    simp only [Except.error.injEq] at h
    rw [h] at hns
    obtain ⟨hn, hrest⟩ := checkName_unconv hns
    exact hn ▸ hrest
  | ok u =>
    rw [hns] at h
    cases hcol : colonOf base with
    | false => rw [hcol] at h; simp at h
    | true =>
      rw [hcol] at h
      simp only [if_true] at h
      cases hca : checkAll ext (rewriteSegs ext (splitOnSlash (apOf base))) with
      | error e =>
        rw [hca] at h
        simp only [Except.error.injEq] at h
        rw [h] at hca
        exact checkAll_unconv ext _ n hca
      | ok u2 => rw [hca] at h; simp at h

/-- The constructor never raises an `AttributeError`: its only failures are
the two invalid-name `ValueError`s of `_check_name`. -/
theorem rlInit_ne_attr (base : String) (v : Option Version) (t : Option String)
    (ext : Bool) (a : String) : rlInit base v t ext ≠ .error (.attributeError a) := by
  intro h
  unfold rlInit at h
  cases hns : checkName ext (nsOf base) with
  | error e =>
    rw [hns] at h
    simp only [Except.error.injEq] at h
    exact checkName_ne_attr ext (nsOf base) a (h ▸ hns)
  | ok u =>
    rw [hns] at h
    cases hcol : colonOf base with
    | false => rw [hcol] at h; simp at h
    | true =>
      rw [hcol] at h
      simp only [if_true] at h
      cases hca : checkAll ext (rewriteSegs ext (splitOnSlash (apOf base))) with
      | error e =>
        rw [hca] at h
        simp only [Except.error.injEq] at h
        exact checkAll_ne_attr ext _ a (h ▸ hca)
      | ok u2 => rw [hca] at h; simp at h

/-! ## The validation loop exhausts the shared glob iterator -/

/-- When the validation loop returns normally it has consumed the whole
iterator: the remainder it hands to the build loop is empty. -/
theorem packLoop1_leftover (fs : FS) :
    ∀ (l : List PPath) (acc out : List (PPath × PackConfig)) (rem : List PPath),
      packLoop1 fs l acc = .ok (out, rem) → rem = [] := by
  intro l
  induction l with
  | nil =>
    intro acc out rem h
    simp only [packLoop1, Except.ok.injEq, Prod.mk.injEq] at h
    exact h.2.symm
  | cons p rest ih =>
    intro acc out rem h
    simp only [packLoop1] at h
    split at h
    · exact ih _ _ _ h
    · split at h
      · exact Except.noConfusion h
      · split at h
        · exact Except.noConfusion h
        · exact ih _ _ _ h

/-! ## Concrete instances used by the claims -/

/-- The instance built by `ResourceLocation("ns")`. -/
def rlNs : ResourceLocation := ⟨"ns", none, none, none, false⟩

/-- The instance built by `ResourceLocation("ns:a")`. -/
def rlNsA : ResourceLocation := ⟨"ns", some "a", none, none, false⟩

/-- The instance built by `ResourceLocation("ns:path")`. -/
def rlNsPath : ResourceLocation := ⟨"ns", some "path", none, none, false⟩

/-- The instance built by `ResourceLocation("ns:api", external=True)`. -/
def rlApi : ResourceLocation := ⟨"ns", some "api", none, none, true⟩

/-- The instance built by `ResourceLocation("ns:api/_test", external=True)`. -/
def rlApiTest : ResourceLocation := ⟨"ns", some "api/_test", none, none, true⟩

/-- The instance built by `ResourceLocation("a:b", title="X")`. -/
def rlABTitled : ResourceLocation := ⟨"a", some "b", none, some "X", false⟩

/-- The instance built by `ResourceLocation("a:b")`. -/
def rlAB : ResourceLocation := ⟨"a", some "b", none, none, false⟩

/-- A pack directory at `datapacks/1.20/mypack`. -/
def packW : PPath := ⟨["datapacks", "1.20", "mypack"]⟩

/-- A complete, well-formed `config.yaml` for `packW`. -/
def cfgW : PackConfig := ⟨some "My Pack", some "1.0.0"⟩

/-- A filesystem on which everything is in order: the glob finds exactly
`packW`, it is a directory on the conventional path, and its config parses
with both required keys. -/
def fsW : FS := ⟨[packW], fun _ => true, fun _ => true, fun _ => cfgW⟩

/-! ## The claims -/

/-- C1: the claim says a trailing `_`-marked segment is rewritten by
stripping the leading underscore and prepending the private prefix, so
that `str(ResourceLocation("ns") / "_thing")` is
`"ns:zz/do_not_run_or_packs_may_break/thing"`.  On the code this fails
three times over: the `/` operator on a path-less location raises
`AttributeError('_abstract_path')` before any rewrite; direct construction
of `ResourceLocation("ns:_thing")` raises the invalid-name `ValueError`
for the inserted `PRIVATE_PATH` segment (it contains `/`); and the rewrite
itself uses `removesuffix("_")` instead of `removeprefix("_")`, so the
leading underscore is kept even in the computed segments. -/
theorem c1_private_rewrite_code_bug :
    rlInit "ns:_thing" none none false = .error (.invalidName PRIVATE_PATH)
    ∧ truediv rlNs "_thing" = .error (.attributeError "_abstract_path")
    ∧ rewriteSegs false (splitOnSlash "_thing") = [PRIVATE_PATH, "_thing"]
    ∧ removeSuffixUnderscore "_thing" = "_thing" :=
  ⟨rfl, rfl, rfl, rfl⟩

/-- C2: the claim says a conventional namespace constructs successfully and
renders back to exactly the namespace.  Construction does succeed, but
rendering raises `AttributeError('_path')`: for colon-less input
`__init__` never assigns `_abstract_path`, so the `_path` property blows
up and `__getattr__` rejects the underscore-prefixed fallback key. -/
theorem c2_namespace_render_code_bug :
    CONVENTIONAL_RESOURCE_NAME "ns" = true
    ∧ rlInit "ns" none none false = .ok rlNs
    ∧ strRL rlNs = .error (.attributeError "_path") :=
  ⟨rfl, rfl, rfl⟩

/-- C3 (counterexample): the claim says the validated segments are the
pre-rewrite shorthand segments.  For `ResourceLocation("ns:_thing")` the
constructor fails with the invalid-name error naming `PRIVATE_PATH` — a
string that is neither the namespace nor any pre-rewrite segment — so
validation in fact examined a post-rewrite segment. -/
theorem c3_prerewrite_validation_counterexample :
    rlInit "ns:_thing" none none false = .error (.invalidName PRIVATE_PATH)
    ∧ ((nsOf "ns:_thing" :: splitOnSlash (apOf "ns:_thing")).contains PRIVATE_PATH) = false :=
  ⟨rfl, rfl⟩

/-- C3 (amended): when the input contains `:`, the names validated are the
post-rewrite segments (`__init__` iterates `self._path_segments`), but the
rewrite cannot bypass validation: construction succeeds exactly when the
namespace and every *pre-rewrite* segment of the abstract path pass the
two-tier check. -/
theorem c3_validation_amended (base : String) (v : Option Version) (t : Option String)
    (ext : Bool) (hc : colonOf base = true) :
    isOkE (rlInit base v t ext)
      = (twoTierOk ext (nsOf base) && (splitOnSlash (apOf base)).all (twoTierOk ext)) := by
  rw [rlInit_isOk, hc]
  simp

/-- C3 (witness): the amended equation at the concrete input
`ResourceLocation("ns:_thing")`. -/
theorem c3_validation_amended_witness :
    isOkE (rlInit "ns:_thing" none none false)
      = (twoTierOk false (nsOf "ns:_thing") &&
         (splitOnSlash (apOf "ns:_thing")).all (twoTierOk false)) :=
  c3_validation_amended "ns:_thing" none none false rfl

/-- C4: the claim says attribute-style lookup of a conventional key yields
the dotted symbol name, e.g. `ResourceLocation("ns").thing_1 ==
"ns.thing_1"`.  For a path-less location the lookup instead raises
`AttributeError('_path_segments')` (the `_abstract_path` attribute was
never assigned); the pathed case and the unconventional-key case behave as
claimed. -/
theorem c4_symbol_projection_code_bug :
    rlInit "ns:path" none none false = .ok rlNsPath
    ∧ getattrRL rlNs "thing_1" = .error (.attributeError "_path_segments")
    ∧ getattrRL rlNsPath "thing_2" = .ok (.pyStr "ns.path.thing_2")
    ∧ getattrRL rlNsPath "Thing" = .error (.attributeError "Thing") :=
  ⟨rfl, rfl, rfl, rfl⟩

/-- C5: the claim says `loc[field]` reads the internal field `_{field}` for
each of the seven component names.  It does for `namespace`,
`abstract_path`, `path` and `path_segments`, but `version`, `title` and
`external` are stored by `__init__` under those very names *without* the
underscore, so `loc["version"]`, `loc["title"]` and `loc["external"]`
raise `AttributeError` instead of returning the stored value. -/
theorem c5_bracket_lookup_code_bug :
    rlInit "a:b" none (some "X") false = .ok rlABTitled
    ∧ getitemRL rlABTitled "namespace" = .ok (.pyStr "a")
    ∧ getitemRL rlABTitled "abstract_path" = .ok (.pyStr "b")
    ∧ getitemRL rlABTitled "path" = .ok (.pyStr "b")
    ∧ getitemRL rlABTitled "path_segments" = .ok (.pyTuple ["b"])
    ∧ getitemRL rlABTitled "title" = .error (.attributeError "_title")
    ∧ getitemRL rlABTitled "version" = .error (.attributeError "_version")
    ∧ getitemRL rlABTitled "external" = .error (.attributeError "_external") :=
  ⟨rfl, rfl, rfl, rfl, rfl, rfl, rfl, rfl⟩

/-- C6 (counterexample): the claim extends the invalid-name behaviour to
every `/` derivation, but `/` never reaches construction: with the
permissive-grammar-violating suffix `"UPPER"` it raises
`AttributeError('_external')` and no invalid-name error at all. -/
theorem c6_error_condition_counterexample :
    rlInit "ns:a" none none false = .ok rlNsA
    ∧ VALID_RESOURCE_NAME "UPPER" = false
    ∧ truediv rlNsA "UPPER" = .error (.attributeError "_external")
    ∧ (match truediv rlNsA "UPPER" with
       | .error (.invalidName _) => true
       | .error (.unconventionalName _) => true
       | _ => false) = false :=
  ⟨rfl, rfl, rfl, rfl⟩

/-- C6 (amended): direct construction raises the invalid-name error exactly
when the namespace or some abstract-path segment fails the permissive
grammar, or passes it but fails the conventional grammar while `external`
is false; the error payloads satisfy exactly those conditions, a name
matching the conventional grammar is never the culprit, and no other error
kind is raised.  (The `/` operator itself never reaches construction — it
raises `AttributeError('_external')` first, per the counterexample.) -/
theorem c6_construction_errors_amended (base : String) (v : Option Version)
    (t : Option String) (ext : Bool) :
    (isOkE (rlInit base v t ext)
       = (twoTierOk ext (nsOf base) &&
          (!colonOf base || (splitOnSlash (apOf base)).all (twoTierOk ext))))
    ∧ (∀ n, rlInit base v t ext = .error (.invalidName n) →
        VALID_RESOURCE_NAME n = false)
    ∧ (∀ n, rlInit base v t ext = .error (.unconventionalName n) →
        VALID_RESOURCE_NAME n = true ∧ CONVENTIONAL_RESOURCE_NAME n = false ∧ ext = false)
    ∧ (∀ n, CONVENTIONAL_RESOURCE_NAME n = true →
        rlInit base v t ext ≠ .error (.invalidName n) ∧
          rlInit base v t ext ≠ .error (.unconventionalName n))
    ∧ (∀ a, rlInit base v t ext ≠ .error (.attributeError a)) := by
  refine ⟨rlInit_isOk base v t ext, fun n h => rlInit_invalid h, fun n h => rlInit_unconv h,
    fun n hconv => ⟨fun h => ?_, fun h => ?_⟩, fun a => rlInit_ne_attr base v t ext a⟩
  · have hv := rlInit_invalid h
    rw [conv_imp_valid n hconv] at hv
    exact Bool.noConfusion hv
  · have hc := (rlInit_unconv h).2.1
    rw [hconv] at hc
    exact Bool.noConfusion hc

/-- C6 (witness): the amended theorem applied at `ResourceLocation("ns:_thing")`,
whose construction error names the private prefix; the theorem then yields
that this name fails the permissive grammar. -/
theorem c6_construction_errors_amended_witness :
    VALID_RESOURCE_NAME PRIVATE_PATH = false :=
  (c6_construction_errors_amended "ns:_thing" none none false).2.1 PRIVATE_PATH rfl

/-- C7: whenever both renderings are defined, two locations compare equal
exactly when the renderings coincide, and equal locations have equal
hashes; `version`, `title` and `external` do not enter either rendering,
so they cannot affect equality or hashing. -/
theorem c7_eq_hash (a b : ResourceLocation) (sa sb : String)
    (ha : strRL a = .ok sa) (hb : strRL b = .ok sb) :
    (eqRL a b = .ok true ↔ sa = sb) ∧ (eqRL a b = .ok true → hashRL a = hashRL b) := by
  have he : eqRL a b = .ok (decide (sa = sb)) := by
    unfold eqRL
    rw [ha, hb]
  constructor
  · rw [he]
    simp
  · intro h
    rw [he] at h
    simp only [Except.ok.injEq, decide_eq_true_eq] at h
    unfold hashRL
    rw [ha, hb, h]

/-- C7 (witness): `ResourceLocation("a:b", title="X")` equals
`ResourceLocation("a:b")` and the two hash equal. -/
theorem c7_eq_hash_witness :
    eqRL rlABTitled rlAB = .ok true ∧ hashRL rlABTitled = hashRL rlAB :=
  ⟨(c7_eq_hash rlABTitled rlAB "a:b" "a:b" rfl rfl).1.mpr rfl,
   (c7_eq_hash rlABTitled rlAB "a:b" "a:b" rfl rfl).2
     ((c7_eq_hash rlABTitled rlAB "a:b" "a:b" rfl rfl).1.mpr rfl)⟩

/-- C8: the claim says `loc / suffix` purely produces a fresh location with
the extended abstract path.  On the code every `/` raises: `__truediv__`
reads `self._external`, an attribute `__init__` never assigns (it stores
`self.external`), so `ResourceLocation("ns:a") / "b"` raises
`AttributeError('_external')` (and on a path-less receiver the earlier
`self._abstract_path` read raises first).  Constructing the intended
result directly shows what the claim expected: `"ns:a/b"`. -/
theorem c8_truediv_code_bug :
    rlInit "ns:a" none none false = .ok rlNsA
    ∧ truediv rlNsA "b" = .error (.attributeError "_external")
    ∧ truediv rlNs "x" = .error (.attributeError "_abstract_path")
    ∧ rlInit "ns:a/b" none none false = .ok ⟨"ns", some "a/b", none, none, false⟩
    ∧ strRL ⟨"ns", some "a/b", none, none, false⟩ = .ok "ns:a/b" :=
  ⟨rfl, rfl, rfl, rfl, rfl⟩

/-- C9: the claim says the external flag disables the private rewrite so
`ResourceLocation("ns:api", external=True) / "_test"` renders
`"ns:api/_test"`.  The rewrite-disabling part is genuine — direct
construction of `"ns:api/_test"` with `external=True` succeeds, keeps the
underscore, inserts no prefix and renders as claimed — but the `/`
operator itself raises `AttributeError('_external')`, as for every
derivation. -/
theorem c9_external_truediv_code_bug :
    rlInit "ns:api" none none true = .ok rlApi
    ∧ truediv rlApi "_test" = .error (.attributeError "_external")
    ∧ rlInit "ns:api/_test" none none true = .ok rlApiTest
    ∧ getattrRL rlApiTest "_path_segments" = .ok (.pyTuple ["api", "_test"])
    ∧ strRL rlApiTest = .ok "ns:api/_test" :=
  ⟨rfl, rfl, rfl, rfl, rfl⟩

/-- C10: `pack_paths` is the single-use generator returned by
`Path(".").glob`, fully consumed by the validation loop, so the build loop
iterates over nothing: whenever `beet_default` returns normally, the list
of registered subprojects is empty. -/
theorem c10_no_packs_built (fs : FS) (res : List Subproject)
    (h : beetDefault fs = .ok res) : res = [] := by
  unfold beetDefault at h
  cases hl : packLoop1 fs fs.globResult [] with
  | error e =>
    rw [hl] at h
    exact Except.noConfusion h
  | ok pr =>
    obtain ⟨cfgs, rem⟩ := pr
    rw [hl] at h
    have hrem : rem = [] := packLoop1_leftover fs fs.globResult [] cfgs rem hl
    subst hrem
    simp only [Except.ok.injEq] at h
    rw [← h]
    rfl

/-- C10 (witness): on a filesystem where the single discovered pack is
valid in every respect, the validation loop consumes and records it, yet
`beet_default` still builds nothing. -/
theorem c10_no_packs_built_witness :
    beetDefault fsW = .ok []
    ∧ packLoop1 fsW [packW] [] = .ok ([(packW, cfgW)], [])
    ∧ ([] : List Subproject) = [] :=
  ⟨rfl, rfl, c10_no_packs_built fsW [] rfl⟩
